import Mathlib

/-!
A shallow embedding of the SwitzerlandTrainDelays repository (the modules
`data_cleaner.py` and `data_reader.py`) together with theorems that check
the repository's natural-language specification against the code.

Tables model pandas DataFrames as a column schema plus a list of rows;
rows are association lists from column names to cell values.  Fallible
pandas operations (KeyError on a missing column, ValueError on an
unparseable timestamp, the ValueError raised by `pd.concat([])`) are
modelled with `Except String`.  Timestamps are whole seconds on the
proleptic Gregorian calendar; floating-point delay values are modelled
as rationals.
-/

deriving instance DecidableEq for Except

namespace Istdaten

/-- Cell values of an istdaten table: string cells, parsed timestamps
(seconds since the civil epoch 1970-01-01), floating-point numbers
(modelled as rationals) and the missing value (pandas NaN / NaT). -/
inductive Value where
  | str : String → Value
  | ts : Int → Value
  | num : ℚ → Value
  | null : Value
deriving DecidableEq, Repr

/-- A row of an istdaten table: an association list from column names to
cell values. -/
abbrev Row := List (String × Value)

/-- A pandas DataFrame: a column schema plus the list of rows. -/
structure Table where
  cols : List String
  rows : List Row
deriving DecidableEq, Repr

/-- Reading a cell.  A schema column absent from the row association list
reads as the missing value, matching pandas where every row carries every
schema column (possibly as NaN). -/
def getVal : Row → String → Value
  | [], _ => .null
  | (c', v) :: r, c => if c' = c then v else getVal r c

/-- Writing a cell, as pandas item assignment does: replace the entry for
the column when present, otherwise append a new entry. -/
def setCell : Row → String → Value → Row
  | [], c, v => [(c, v)]
  | (c', w) :: r, c, v => if c' = c then (c, v) :: r else (c', w) :: setCell r c v

/-- Error-propagating map over a list, used to model pandas column-wise
operations that can raise on a single element. -/
def mapME (f : α → Except String β) : List α → Except String (List β)
  | [] => .ok []
  | a :: l =>
    match f a with
    | .error e => .error e
    | .ok b =>
      match mapME f l with
      | .error e => .error e
      | .ok l' => .ok (b :: l')

/-! ### A model of `pd.to_datetime(·, dayfirst=True)` on istdaten cells

The istdaten timestamp columns hold day-first strings such as
`"01.05.2021 10:00:00"` (the service-day column holds `"01.05.2021"`).
The parser below converts such a string to seconds since 1970-01-01 using
the standard civil-calendar day count; malformed strings yield `none`.
`pd.to_datetime` is called with its default `errors="raise"`, so a
malformed non-null cell raises rather than becoming NaT. -/

/-- Splitting a character list on a separator character, like
`str.split` on the textual timestamp fields. -/
def splitOnChar (sep : Char) : List Char → List (List Char)
  | [] => [[]]
  | c :: rest =>
    let r := splitOnChar sep rest
    if c = sep then [] :: r
    else
      match r with
      | h :: t => (c :: h) :: t
      | [] => [[c]]

/-- Reading a non-empty all-digit character list as a natural number. -/
def digitsToNat? (l : List Char) : Option Nat :=
  if 0 < l.length && l.all (fun c => c.isDigit) then
    some (l.foldl (fun a c => a * 10 + (c.toNat - 48)) 0)
  else none

/-- Day count of a Gregorian calendar date from the civil epoch
1970-01-01 (the standard days-from-civil computation). -/
def daysFromCivil (y m d : Nat) : Int :=
  let yi : Int := if m ≤ 2 then (y : Int) - 1 else (y : Int)
  let era : Int := yi / 400
  let yoe : Int := yi - era * 400
  let mp : Int := if 3 ≤ m then (m : Int) - 3 else (m : Int) + 9
  let doy : Int := (153 * mp + 2) / 5 + (d : Int) - 1
  let doe : Int := yoe * 365 + yoe / 4 - yoe / 100 + doy
  era * 146097 + doe - 719468

/-- Parsing the time-of-day part, `HH:MM` or `HH:MM:SS`, as seconds. -/
def parseTime (l : List Char) : Option Int :=
  match splitOnChar ':' l with
  | [h, m] => do
    let hh ← digitsToNat? h
    let mm ← digitsToNat? m
    if hh < 24 && mm < 60 then some ((hh : Int) * 3600 + (mm : Int) * 60) else none
  | [h, m, s] => do
    let hh ← digitsToNat? h
    let mm ← digitsToNat? m
    let ss ← digitsToNat? s
    if hh < 24 && mm < 60 && ss < 60 then
      some ((hh : Int) * 3600 + (mm : Int) * 60 + (ss : Int))
    else none
  | _ => none

/-- Parsing the day-first date part `dd.mm.yyyy` as a civil day count. -/
def parseDate (l : List Char) : Option Int :=
  match splitOnChar '.' l with
  | [dd, mm, yyyy] => do
    let d ← digitsToNat? dd
    let m ← digitsToNat? mm
    let y ← digitsToNat? yyyy
    if 1 ≤ d && d ≤ 31 && 1 ≤ m && m ≤ 12 then some (daysFromCivil y m d) else none
  | _ => none

/-- Parsing a full istdaten timestamp string (`dd.mm.yyyy HH:MM[:SS]`, or
a bare date) to seconds since the civil epoch. -/
def parseTimestamp (s : String) : Option Int :=
  match splitOnChar ' ' s.data with
  | [dpart] => do
    let days ← parseDate dpart
    some (86400 * days)
  | [dpart, tpart] => do
    let days ← parseDate dpart
    let secs ← parseTime tpart
    some (86400 * days + secs)
  | _ => none

/-- Conversion of one cell by `pd.to_datetime(·, dayfirst=True)`: a
missing value stays missing (NaT), an already-converted timestamp is
returned unchanged, a parseable string becomes a timestamp, and an
unparseable string raises (`errors="raise"` is the pandas default). -/
def parseValue : Value → Except String Value
  | .null => .ok .null
  | .ts n => .ok (.ts n)
  | .str s =>
    match parseTimestamp s with
    | some n => .ok (.ts n)
    | none => .error "ValueError"
  | .num _ => .error "TypeError"

/-! ### The stages of `data_cleaner.py` -/

/-- Shared shape of the pandas boolean-mask selections
`df = df[df[c] == s]` in data_cleaner.py (lines 41, 59, 78, 96): KeyError
when the column is missing from the schema, otherwise keep exactly the
rows whose cell in the column equals the given string. -/
def colEqFilter (t : Table) (c s : String) : Except String Table :=
  if c ∈ t.cols then
    .ok ⟨t.cols, t.rows.filter (fun r => decide (getVal r c = .str s))⟩
  else .error "KeyError"

/-- data_cleaner.py lines 26-42, `select_sbb`: keep rows whose
`BETREIBER_ABK` is `"SBB"`. -/
def select_sbb (t : Table) : Except String Table :=
  colEqFilter t "BETREIBER_ABK" "SBB"

/-- data_cleaner.py lines 44-60, `select_trains`: keep rows whose
`PRODUKT_ID` is `"Zug"`. -/
def select_trains (t : Table) : Except String Table :=
  colEqFilter t "PRODUKT_ID" "Zug"

/-- data_cleaner.py lines 63-79, `real_prognose_filter_abfahrt`: keep rows
whose `AB_PROGNOSE_STATUS` is `"REAL"`. -/
def real_prognose_filter_abfahrt (t : Table) : Except String Table :=
  colEqFilter t "AB_PROGNOSE_STATUS" "REAL"

/-- data_cleaner.py lines 81-97, `real_prognose_filter_ankunft`: keep rows
whose `AN_PROGNOSE_STATUS` is `"REAL"`. -/
def real_prognose_filter_ankunft (t : Table) : Except String Table :=
  colEqFilter t "AN_PROGNOSE_STATUS" "REAL"

/-- Columns dropped by `remove_unnecessary_columns`
(data_cleaner.py lines 21-22). -/
def unnecessaryColumns : List String :=
  ["BETREIBER_ID", "LINIEN_ID", "UMLAUF_ID", "VERKEHRSMITTEL_TEXT", "FAELLT_AUS_TF"]

/-- data_cleaner.py lines 6-23, `remove_unnecessary_columns`:
`df.drop(columns=[...], inplace=True)`.  pandas validates the labels
first and raises KeyError when any of them is missing; otherwise the
columns are removed from the schema and from every row. -/
def remove_unnecessary_columns (t : Table) : Except String Table :=
  if unnecessaryColumns.all (fun c => decide (c ∈ t.cols)) then
    .ok ⟨t.cols.filter (fun c => decide (c ∉ unnecessaryColumns)),
         t.rows.map (fun r => r.filter (fun p => decide (p.1 ∉ unnecessaryColumns)))⟩
  else .error "KeyError"

/-- The five columns converted by `convert_to_datetimes`
(data_cleaner.py lines 116-120), in source order. -/
def timestampColumns : List String :=
  ["AN_PROGNOSE", "ANKUNFTSZEIT", "AB_PROGNOSE", "ABFAHRTSZEIT", "BETRIEBSTAG"]

/-- One line of `convert_to_datetimes`:
`df[c] = df[c].apply(pd.to_datetime, dayfirst=True)`.  KeyError when the
column is missing; otherwise each cell of the column is converted, and a
single unparseable cell makes the whole call raise. -/
def convertCol (t : Table) (c : String) : Except String Table :=
  if c ∈ t.cols then
    match mapME (fun r =>
        match parseValue (getVal r c) with
        | .error e => .error e
        | .ok v => .ok (setCell r c v)) t.rows with
    | .error e => .error e
    | .ok rows => .ok ⟨t.cols, rows⟩
  else .error "KeyError"

/-- data_cleaner.py lines 99-123, `convert_to_datetimes`: converts the
four timestamp columns and the service-day column, in source order. -/
def convert_to_datetimes (t : Table) : Except String Table :=
  match convertCol t "AN_PROGNOSE" with
  | .error e => .error e
  | .ok t1 =>
    match convertCol t1 "ANKUNFTSZEIT" with
    | .error e => .error e
    | .ok t2 =>
      match convertCol t2 "AB_PROGNOSE" with
      | .error e => .error e
      | .ok t3 =>
        match convertCol t3 "ABFAHRTSZEIT" with
        | .error e => .error e
        | .ok t4 => convertCol t4 "BETRIEBSTAG"

/-- Shared shape of the two `bad_data_filter_abfahrt` definitions:
`df = df[(df[c1].notna()) & (df[c2].notna())]`. -/
def notnaFilter (t : Table) (c1 c2 : String) : Except String Table :=
  if c1 ∈ t.cols ∧ c2 ∈ t.cols then
    .ok ⟨t.cols, t.rows.filter (fun r =>
        decide (getVal r c1 ≠ .null) && decide (getVal r c2 ≠ .null))⟩
  else .error "KeyError"

/-- data_cleaner.py lines 126-142, the FIRST definition of
`bad_data_filter_abfahrt`: keep rows whose `AB_PROGNOSE` and
`ABFAHRTSZEIT` are non-null.  In Python this definition is shadowed by
the second definition below and is never the one called. -/
def bad_data_filter_abfahrt_shadowed (t : Table) : Except String Table :=
  notnaFilter t "AB_PROGNOSE" "ABFAHRTSZEIT"

/-- data_cleaner.py lines 144-160, the SECOND (effective) definition of
`bad_data_filter_abfahrt`: keep rows whose `AN_PROGNOSE` and
`ANKUNFTSZEIT` are non-null.  Being the later `def` of the same name, it
is the one the module exports and the one `clean_data_abfahrt` calls. -/
def bad_data_filter_abfahrt (t : Table) : Except String Table :=
  notnaFilter t "AN_PROGNOSE" "ANKUNFTSZEIT"

/-- Per-row computation of
`(df['AB_PROGNOSE'] - df['ABFAHRTSZEIT']) / pd.Timedelta(seconds=1)`:
two timestamps subtract to a floating-point number of seconds, a NaT on
either side yields NaN, and a non-datetime (string) operand raises. -/
def delayRow (r : Row) : Except String Row :=
  match getVal r "AB_PROGNOSE", getVal r "ABFAHRTSZEIT" with
  | .ts a, .ts b => .ok (setCell r "ABFAHRTSVERSPAETUNG_s" (.num ((a - b : Int) : ℚ)))
  | .null, _ => .ok (setCell r "ABFAHRTSVERSPAETUNG_s" .null)
  | _, .null => .ok (setCell r "ABFAHRTSVERSPAETUNG_s" .null)
  | _, _ => .error "TypeError"

/-- Appending a column to a schema, as pandas item assignment does: a new
name goes to the end, an existing name keeps its place. -/
def addCol (cs : List String) (c : String) : List String :=
  if c ∈ cs then cs else cs ++ [c]

/-- data_cleaner.py lines 163-179, `calculate_delay_abfahrt`: adds the
column `ABFAHRTSVERSPAETUNG_s` holding the departure delay in seconds.
The nested `calculate_delay_ankunft` after the `return` (lines 181-197)
is dead code: no arrival delay is ever computed. -/
def calculate_delay_abfahrt (t : Table) : Except String Table :=
  if "AB_PROGNOSE" ∈ t.cols ∧ "ABFAHRTSZEIT" ∈ t.cols then
    match mapME delayRow t.rows with
    | .error e => .error e
    | .ok rows => .ok ⟨addCol t.cols "ABFAHRTSVERSPAETUNG_s", rows⟩
  else .error "KeyError"

/-- data_cleaner.py lines 241-263, `clean_data_abfahrt`: the clean
pipeline exactly as coded, in source order. -/
def clean_data_abfahrt (t : Table) : Except String Table :=
  match select_trains t with
  | .error e => .error e
  | .ok t1 =>
    match remove_unnecessary_columns t1 with
    | .error e => .error e
    | .ok t2 =>
      match convert_to_datetimes t2 with
      | .error e => .error e
      | .ok t3 =>
        match real_prognose_filter_abfahrt t3 with
        | .error e => .error e
        | .ok t4 =>
          match bad_data_filter_abfahrt t4 with
          | .error e => .error e
          | .ok t5 => calculate_delay_abfahrt t5

/-- data_cleaner.py lines 265-283, `prepare_data`: `select_sbb` followed
by the full `clean_data_abfahrt` (the call to `remove_crazy_delays` is
commented out in the source). -/
def prepare_data (t : Table) : Except String Table :=
  match select_sbb t with
  | .error e => .error e
  | .ok t1 => clean_data_abfahrt t1

/-! ### Caller-view semantics of the stage argument

The row-selection stages are written `df = df[mask]`, which rebinds the
local name to a new frame and leaves the caller's object untouched.
`remove_unnecessary_columns` instead calls `df.drop(..., inplace=True)`,
which mutates the very object the caller passed (pandas validates the
labels before mutating, so on KeyError the object is unchanged).  The
definitions below give, for a stage, the state of the caller's table
object after the call returns. -/

/-- State of the caller's table after `select_trains` returns: the
boolean-mask selection builds a new frame, so the argument object is
unchanged. -/
def select_trains_callerView (t : Table) : Table := t

/-- State of the caller's table after `remove_unnecessary_columns`
returns: `drop(inplace=True)` mutates the argument object to the
column-dropped table; when it raises KeyError the labels were validated
before any mutation, so the object is unchanged. -/
def remove_unnecessary_columns_callerView (t : Table) : Table :=
  match remove_unnecessary_columns t with
  | .ok t' => t'
  | .error _ => t

/-! ### The tiered cache reader of `data_reader.py`

Dates are modelled as integer day numbers (so `date_end - date_start`
has exactly `delta.days = end - start`).  The local data directory is a
record of association lists from date to the stored table, one list per
artifact kind (csv source files, raw / cleaned / prepared parquet
artifacts); the monthly remote archive is a further association list
passed as an environment. -/

/-- The local data directory: the artifacts present on disk, per kind. -/
structure FS where
  csv : List (Int × Table)
  raw : List (Int × Table)
  cleaned : List (Int × Table)
  prepared : List (Int × Table)
deriving DecidableEq, Repr

/-- Writing an artifact (`to_parquet` or csv extraction): the new entry
shadows any previous one for the same date. -/
def store (l : List (Int × Table)) (d : Int) (t : Table) : List (Int × Table) :=
  (d, t) :: l

/-- data_reader.py lines 17-38, `read_csv`: reads the csv source file for
the date; a missing file raises FileNotFoundError. -/
def read_csv (fs : FS) (d : Int) : Except String Table :=
  match fs.csv.lookup d with
  | some t => .ok t
  | none => .error "FileNotFoundError"

/-- data_reader.py lines 86-123, `download_archive`: fetches the monthly
archive and extracts its csv files into the data directory; modelled as
merging the remote archive's files into the local csv store. -/
def download_archive (remote : List (Int × Table)) (fs : FS) : FS :=
  { fs with csv := remote ++ fs.csv }

/-- data_reader.py lines 127-170, `read_data`: return the raw parquet
artifact when it exists; else read the csv and persist it as raw
parquet; else download the archive first and then read the csv. -/
def read_data (remote : List (Int × Table)) (d : Int) (fs : FS) :
    Except String (Table × FS) :=
  match fs.raw.lookup d with
  | some t => .ok (t, fs)
  | none =>
    match fs.csv.lookup d with
    | some t => .ok (t, { fs with raw := store fs.raw d t })
    | none =>
      let fs1 := download_archive remote fs
      match fs1.csv.lookup d with
      | some t => .ok (t, { fs1 with raw := store fs1.raw d t })
      | none => .error "FileNotFoundError"

/-- data_reader.py lines 174-201, `read_cleaned_data`: return the cleaned
artifact when it exists; else read the raw data, run
`clean_data_abfahrt`, persist the result as the cleaned artifact and
return it. -/
def read_cleaned_data (remote : List (Int × Table)) (d : Int) (fs : FS) :
    Except String (Table × FS) :=
  match fs.cleaned.lookup d with
  | some t => .ok (t, fs)
  | none =>
    match read_data remote d fs with
    | .error e => .error e
    | .ok (df, fs1) =>
      match clean_data_abfahrt df with
      | .error e => .error e
      | .ok df' => .ok (df', { fs1 with cleaned := store fs1.cleaned d df' })

/-- data_reader.py lines 203-232, `read_prepared_data`: return the
prepared artifact when it exists; else read the cleaned data, run
`prepare_data` on it, persist the result as the prepared artifact and
return it. -/
def read_prepared_data (remote : List (Int × Table)) (d : Int) (fs : FS) :
    Except String (Table × FS) :=
  match fs.prepared.lookup d with
  | some t => .ok (t, fs)
  | none =>
    match read_cleaned_data remote d fs with
    | .error e => .error e
    | .ok (df, fs1) =>
      match prepare_data df with
      | .error e => .error e
      | .ok df' => .ok (df', { fs1 with prepared := store fs1.prepared d df' })

/-- The date list both range readers build
(data_reader.py lines 253-254 and 279-280):
`[date_start + timedelta(days=i) for i in range(delta.days + 1)]`, an
empty list when `delta.days + 1 <= 0`. -/
def dateListCode (a b : Int) : List Int :=
  (List.range (b - a + 1).toNat).map (fun i : Nat => a + (i : Int))

/-- The per-date read loop of the range readers: reads each date in list
order, threading the data directory, and collects the tables. -/
def readTables (reader : Int → FS → Except String (Table × FS)) :
    List Int → FS → Except String (List Table × FS)
  | [], fs => .ok ([], fs)
  | d :: ds, fs =>
    match reader d fs with
    | .error e => .error e
    | .ok (t, fs1) =>
      match readTables reader ds fs1 with
      | .error e => .error e
      | .ok (ts, fs2) => .ok (t :: ts, fs2)

/-- Concatenation of two tables by `pd.concat`: rows are appended, the
schema is the union of the schemas in first-seen order. -/
def concat2 (t1 t2 : Table) : Table :=
  ⟨t2.cols.foldl addCol t1.cols, t1.rows ++ t2.rows⟩

/-- Model of `pd.concat(dfs)`: raises ValueError on an empty list
(pandas: no objects to concatenate). -/
def concatTables : List Table → Except String Table
  | [] => .error "ValueError"
  | t :: ts => .ok (ts.foldl concat2 t)

/-- data_reader.py lines 236-260, `read_cleaned_data_from_daterange`:
read each date produced by `dateListCode` with `read_cleaned_data` and
concatenate the resulting tables. -/
def read_cleaned_data_from_daterange (remote : List (Int × Table))
    (a b : Int) (fs : FS) : Except String (Table × FS) :=
  match readTables (read_cleaned_data remote) (dateListCode a b) fs with
  | .error e => .error e
  | .ok (ts, fs') =>
    match concatTables ts with
    | .error e => .error e
    | .ok t => .ok (t, fs')

/-- data_reader.py lines 262-285, `read_prepared_data_from_daterange`:
read each date produced by `dateListCode` with `read_prepared_data` and
concatenate the resulting tables. -/
def read_prepared_data_from_daterange (remote : List (Int × Table))
    (a b : Int) (fs : FS) : Except String (Table × FS) :=
  match readTables (read_prepared_data remote) (dateListCode a b) fs with
  | .error e => .error e
  | .ok (ts, fs') =>
    match concatTables ts with
    | .error e => .error e
    | .ok t => .ok (t, fs')

/-! ### Spec-side definitions for the range-reader refinement claim -/

/-- Specification-side description of the date sequence: the closed
calendar-day range from `a` to `b`, ascending, written independently of
the code's `range(delta.days + 1)` construction. -/
def specClosedRange (a b : Int) : List Int :=
  if h : a ≤ b then a :: specClosedRange (a + 1) b else []
termination_by (b + 1 - a).toNat
decreasing_by
  omega

/-- Specification-side description of a range read: sequential single-date
reads over an explicit date list, concatenated in order. -/
def seqReadConcat (reader : Int → FS → Except String (Table × FS))
    (dates : List Int) (fs : FS) : Except String (Table × FS) :=
  match readTables reader dates fs with
  | .error e => .error e
  | .ok (ts, fs') =>
    match concatTables ts with
    | .error e => .error e
    | .ok t => .ok (t, fs')

/-! ### Concrete example tables for witnesses and counterexamples -/

/-- Schema of an example raw istdaten table (the columns the pipeline
touches). -/
def exCols : List String :=
  ["BETRIEBSTAG", "BETREIBER_ID", "BETREIBER_ABK", "PRODUKT_ID", "LINIEN_ID",
   "UMLAUF_ID", "VERKEHRSMITTEL_TEXT", "FAELLT_AUS_TF",
   "ANKUNFTSZEIT", "AN_PROGNOSE", "AN_PROGNOSE_STATUS",
   "ABFAHRTSZEIT", "AB_PROGNOSE", "AB_PROGNOSE_STATUS"]

/-- Building an example raw row from the cells the pipeline inspects. -/
def mkRow (betreiber produkt : String) (ank anp : Value) (anst : String)
    (abf abp : Value) (abst : String) : Row :=
  [("BETRIEBSTAG", .str "01.05.2021"),
   ("BETREIBER_ID", .str "85:11"),
   ("BETREIBER_ABK", .str betreiber),
   ("PRODUKT_ID", .str produkt),
   ("LINIEN_ID", .str "17"),
   ("UMLAUF_ID", .str "u1"),
   ("VERKEHRSMITTEL_TEXT", .str "IC"),
   ("FAELLT_AUS_TF", .str "false"),
   ("ANKUNFTSZEIT", ank), ("AN_PROGNOSE", anp), ("AN_PROGNOSE_STATUS", .str anst),
   ("ABFAHRTSZEIT", abf), ("AB_PROGNOSE", abp), ("AB_PROGNOSE_STATUS", .str abst)]

/-- Example train row: arrival status `"GESCHAETZT"`, departure status
`"REAL"`, scheduled departure 10:00:00, predicted departure 10:02:30. -/
def rowA : Row :=
  mkRow "SBB" "Zug"
    (.str "01.05.2021 09:58:00") (.str "01.05.2021 09:59:00") "GESCHAETZT"
    (.str "01.05.2021 10:00:00") (.str "01.05.2021 10:02:30") "REAL"

/-- Example bus row, removed by `select_trains`. -/
def rowB : Row :=
  mkRow "PAG" "Bus"
    (.str "01.05.2021 09:58:00") (.str "01.05.2021 09:59:00") "REAL"
    (.str "01.05.2021 10:00:00") (.str "01.05.2021 10:01:00") "REAL"

/-- Example train row of a non-SBB operator with a missing predicted
arrival, removed by the effective `bad_data_filter_abfahrt`. -/
def rowC : Row :=
  mkRow "THURBO" "Zug"
    (.str "01.05.2021 09:58:00") .null "REAL"
    (.str "01.05.2021 10:00:00") (.str "01.05.2021 10:01:00") "REAL"

/-- Example raw istdaten table with three rows. -/
def exTable : Table := ⟨exCols, [rowA, rowB, rowC]⟩

/-- Output of the clean pipeline on `exTable` (defined for use in closed
witness statements; the theorems establish that the pipeline indeed
returns it). -/
def exCleanOut : Table := ((clean_data_abfahrt exTable).toOption).getD ⟨[], []⟩

/-! ### Basic lemmas -/

theorem mapME_nil_ok {f : α → Except String β} {res : List β}
    (h : mapME f [] = .ok res) : res = [] := by
  simp only [mapME] at h
  cases h
  rfl

theorem mapME_cons_ok {f : α → Except String β} {x : α} {l : List α}
    {res : List β} (h : mapME f (x :: l) = .ok res) :
    ∃ b l', f x = .ok b ∧ mapME f l = .ok l' ∧ res = b :: l' := by
  simp only [mapME] at h
  split at h
  · exact absurd h (by simp)
  · split at h
    · exact absurd h (by simp)
    · cases h
      refine ⟨_, _, ?_, ?_, rfl⟩ <;> assumption

theorem mapME_length {f : α → Except String β} {l : List α} {l' : List β}
    (h : mapME f l = .ok l') : l'.length = l.length := by
  induction l generalizing l' with
  | nil => simp [mapME_nil_ok h]
  | cons a l ih =>
    obtain ⟨b, l₂, _, hl₂, rfl⟩ := mapME_cons_ok h
    simp [ih hl₂]

theorem mapME_getElem? {f : α → Except String β} {l : List α} {l' : List β}
    (h : mapME f l = .ok l') :
    ∀ (i : Nat) (a : α), l[i]? = some a → ∃ b, l'[i]? = some b ∧ f a = .ok b := by
  induction l generalizing l' with
  | nil => intro i a ha; simp at ha
  | cons x l ih =>
    obtain ⟨b, l₂, hfb, hl₂, rfl⟩ := mapME_cons_ok h
    intro i a ha
    cases i with
    | zero =>
      simp only [List.getElem?_cons_zero, Option.some.injEq] at ha
      subst ha
      exact ⟨b, by simp, hfb⟩
    | succ j =>
      simp only [List.getElem?_cons_succ] at ha
      obtain ⟨b', hb', hfb'⟩ := ih hl₂ j a ha
      exact ⟨b', by simpa using hb', hfb'⟩

theorem mapME_mem_rev {f : α → Except String β} {l : List α} {l' : List β}
    (h : mapME f l = .ok l') : ∀ b ∈ l', ∃ a ∈ l, f a = .ok b := by
  induction l generalizing l' with
  | nil => simp [mapME_nil_ok h]
  | cons x l ih =>
    obtain ⟨b, l₂, hfb, hl₂, rfl⟩ := mapME_cons_ok h
    intro b' hb'
    rcases List.mem_cons.mp hb' with hb' | hb'
    · subst hb'
      exact ⟨x, List.mem_cons_self .., hfb⟩
    · obtain ⟨a, ha, hfa⟩ := ih hl₂ b' hb'
      exact ⟨a, List.mem_cons_of_mem _ ha, hfa⟩

theorem mapME_mem_fwd {f : α → Except String β} {l : List α} {l' : List β}
    (h : mapME f l = .ok l') : ∀ a ∈ l, ∃ b ∈ l', f a = .ok b := by
  induction l generalizing l' with
  | nil => simp
  | cons x l ih =>
    obtain ⟨b, l₂, hfb, hl₂, rfl⟩ := mapME_cons_ok h
    intro a ha
    rcases List.mem_cons.mp ha with ha | ha
    · subst ha
      exact ⟨b, List.mem_cons_self .., hfb⟩
    · obtain ⟨b', hb', hfb'⟩ := ih hl₂ a ha
      exact ⟨b', List.mem_cons_of_mem _ hb', hfb'⟩

theorem getVal_setCell_same (r : Row) (c : String) (v : Value) :
    getVal (setCell r c v) c = v := by
  induction r with
  | nil => simp [setCell, getVal]
  | cons p r ih =>
    obtain ⟨c', w⟩ := p
    by_cases hc : c' = c
    · subst hc
      simp [setCell, getVal]
    · simp [setCell, getVal, hc, ih]

theorem getVal_setCell_ne (r : Row) {c c' : String} (v : Value) (hne : c' ≠ c) :
    getVal (setCell r c v) c' = getVal r c' := by
  induction r with
  | nil => simp [setCell, getVal, Ne.symm hne]
  | cons p r ih =>
    obtain ⟨c₀, w⟩ := p
    by_cases hc : c₀ = c
    · subst hc
      simp [setCell, getVal, Ne.symm hne]
    · by_cases hc' : c₀ = c'
      · subst hc'
        simp [setCell, getVal, hc]
      · simp [setCell, getVal, hc, hc', ih]

theorem mem_addCol (cs : List String) (c d : String) :
    c ∈ addCol cs d ↔ c ∈ cs ∨ c = d := by
  by_cases h : d ∈ cs
  · simp only [addCol, if_pos h]
    constructor
    · exact Or.inl
    · rintro (hc | rfl) <;> [exact hc; exact h]
  · simp [addCol, if_neg h]

theorem self_mem_addCol (cs : List String) (d : String) : d ∈ addCol cs d :=
  (mem_addCol cs d d).mpr (Or.inr rfl)

theorem lookup_store (l : List (Int × Table)) (d : Int) (t : Table) :
    (store l d t).lookup d = some t := by
  simp [store, List.lookup]

/-! ### Stage characterization lemmas -/

theorem colEqFilter_ok {t t' : Table} {c s : String}
    (h : colEqFilter t c s = .ok t') :
    t'.cols = t.cols ∧
    t'.rows = t.rows.filter (fun r => decide (getVal r c = .str s)) := by
  simp only [colEqFilter] at h
  split at h
  · cases h
    exact ⟨rfl, rfl⟩
  · exact absurd h (by simp)

theorem notnaFilter_ok {t t' : Table} {c1 c2 : String}
    (h : notnaFilter t c1 c2 = .ok t') :
    t'.cols = t.cols ∧
    t'.rows = t.rows.filter (fun r =>
      decide (getVal r c1 ≠ .null) && decide (getVal r c2 ≠ .null)) := by
  simp only [notnaFilter] at h
  split at h
  · cases h
    exact ⟨rfl, rfl⟩
  · exact absurd h (by simp)

theorem remove_unnecessary_columns_ok {t t' : Table}
    (h : remove_unnecessary_columns t = .ok t') :
    t'.cols = t.cols.filter (fun c => decide (c ∉ unnecessaryColumns)) ∧
    t'.rows.length = t.rows.length ∧
    "BETREIBER_ID" ∈ t.cols := by
  simp only [remove_unnecessary_columns] at h
  split at h
  · cases h
    refine ⟨rfl, by simp, ?_⟩
    next hall =>
      have := List.all_eq_true.mp hall "BETREIBER_ID" (by simp [unnecessaryColumns])
      simpa using this
  · exact absurd h (by simp)

theorem convertCol_ok {t t' : Table} {c : String}
    (h : convertCol t c = .ok t') :
    t'.cols = t.cols ∧
    mapME (fun r =>
      match parseValue (getVal r c) with
      | .error e => .error e
      | .ok v => .ok (setCell r c v)) t.rows = .ok t'.rows := by
  simp only [convertCol] at h
  split at h
  · split at h
    · exact absurd h (by simp)
    · cases h
      exact ⟨rfl, by assumption⟩
  · exact absurd h (by simp)

theorem calculate_delay_abfahrt_ok {t t' : Table}
    (h : calculate_delay_abfahrt t = .ok t') :
    t'.cols = addCol t.cols "ABFAHRTSVERSPAETUNG_s" ∧
    mapME delayRow t.rows = .ok t'.rows := by
  simp only [calculate_delay_abfahrt] at h
  split at h
  · split at h
    · exact absurd h (by simp)
    · cases h
      exact ⟨rfl, by assumption⟩
  · exact absurd h (by simp)

theorem delayRow_getVal_ne {r r' : Row} (h : delayRow r = .ok r')
    {c : String} (hc : c ≠ "ABFAHRTSVERSPAETUNG_s") :
    getVal r' c = getVal r c := by
  simp only [delayRow] at h
  split at h <;>
    first
    | (cases h; exact getVal_setCell_ne _ _ hc)
    | exact absurd h (by simp)

theorem convertCol_row {t t' : Table} {c : String} (h : convertCol t c = .ok t') :
    ∀ (i : Nat) (r : Row), t.rows[i]? = some r →
      ∃ v, parseValue (getVal r c) = .ok v ∧ t'.rows[i]? = some (setCell r c v) := by
  intro i r hr
  obtain ⟨_, hmap⟩ := convertCol_ok h
  obtain ⟨r', hr', hfr⟩ := mapME_getElem? hmap i r hr
  split at hfr
  · exact absurd hfr (by simp)
  · cases hfr
    exact ⟨_, by assumption, hr'⟩

theorem convert_to_datetimes_ok_chain {t t' : Table}
    (h : convert_to_datetimes t = .ok t') :
    ∃ t1 t2 t3 t4,
      convertCol t "AN_PROGNOSE" = .ok t1 ∧
      convertCol t1 "ANKUNFTSZEIT" = .ok t2 ∧
      convertCol t2 "AB_PROGNOSE" = .ok t3 ∧
      convertCol t3 "ABFAHRTSZEIT" = .ok t4 ∧
      convertCol t4 "BETRIEBSTAG" = .ok t' := by
  simp only [convert_to_datetimes] at h
  split at h
  · exact absurd h (by simp)
  · split at h
    · exact absurd h (by simp)
    · split at h
      · exact absurd h (by simp)
      · split at h
        · exact absurd h (by simp)
        · rename_i x1 ta h1 x2 tb h2 x3 tc h3 x4 td h4
          exact ⟨ta, tb, tc, td, h1, h2, h3, h4, h⟩

theorem convert_rows {t t' : Table} (h : convert_to_datetimes t = .ok t') :
    t'.cols = t.cols ∧ t'.rows.length = t.rows.length ∧
    ∀ (i : Nat) (r : Row), t.rows[i]? = some r →
      ∃ r', t'.rows[i]? = some r' ∧
        (∀ c ∈ timestampColumns, parseValue (getVal r c) = .ok (getVal r' c)) ∧
        (∀ c ∉ timestampColumns, getVal r' c = getVal r c) := by
  obtain ⟨t1, t2, t3, t4, h1, h2, h3, h4, h5⟩ := convert_to_datetimes_ok_chain h
  obtain ⟨hc1, hm1⟩ := convertCol_ok h1
  obtain ⟨hc2, hm2⟩ := convertCol_ok h2
  obtain ⟨hc3, hm3⟩ := convertCol_ok h3
  obtain ⟨hc4, hm4⟩ := convertCol_ok h4
  obtain ⟨hc5, hm5⟩ := convertCol_ok h5
  refine ⟨by rw [hc5, hc4, hc3, hc2, hc1], ?_, ?_⟩
  · rw [mapME_length hm5, mapME_length hm4, mapME_length hm3, mapME_length hm2,
      mapME_length hm1]
  · intro i r hr
    obtain ⟨v1, hv1, hr1⟩ := convertCol_row h1 i r hr
    obtain ⟨v2, hv2, hr2⟩ := convertCol_row h2 i _ hr1
    obtain ⟨v3, hv3, hr3⟩ := convertCol_row h3 i _ hr2
    obtain ⟨v4, hv4, hr4⟩ := convertCol_row h4 i _ hr3
    obtain ⟨v5, hv5, hr5⟩ := convertCol_row h5 i _ hr4
    refine ⟨_, hr5, ?_, ?_⟩
    · intro c hc
      fin_cases hc
      · rw [getVal_setCell_ne _ v5 (by decide : ("AN_PROGNOSE" : String) ≠ "BETRIEBSTAG"),
          getVal_setCell_ne _ v4 (by decide : ("AN_PROGNOSE" : String) ≠ "ABFAHRTSZEIT"),
          getVal_setCell_ne _ v3 (by decide : ("AN_PROGNOSE" : String) ≠ "AB_PROGNOSE"),
          getVal_setCell_ne _ v2 (by decide : ("AN_PROGNOSE" : String) ≠ "ANKUNFTSZEIT"),
          getVal_setCell_same]
        exact hv1
      · rw [getVal_setCell_ne _ v5 (by decide : ("ANKUNFTSZEIT" : String) ≠ "BETRIEBSTAG"),
          getVal_setCell_ne _ v4 (by decide : ("ANKUNFTSZEIT" : String) ≠ "ABFAHRTSZEIT"),
          getVal_setCell_ne _ v3 (by decide : ("ANKUNFTSZEIT" : String) ≠ "AB_PROGNOSE"),
          getVal_setCell_same]
        rw [← getVal_setCell_ne r v1 (by decide : ("ANKUNFTSZEIT" : String) ≠ "AN_PROGNOSE")]
        exact hv2
      · rw [getVal_setCell_ne _ v5 (by decide : ("AB_PROGNOSE" : String) ≠ "BETRIEBSTAG"),
          getVal_setCell_ne _ v4 (by decide : ("AB_PROGNOSE" : String) ≠ "ABFAHRTSZEIT"),
          getVal_setCell_same]
        rw [← getVal_setCell_ne r v1 (by decide : ("AB_PROGNOSE" : String) ≠ "AN_PROGNOSE"),
          ← getVal_setCell_ne _ v2 (by decide : ("AB_PROGNOSE" : String) ≠ "ANKUNFTSZEIT")]
        exact hv3
      · rw [getVal_setCell_ne _ v5 (by decide : ("ABFAHRTSZEIT" : String) ≠ "BETRIEBSTAG"),
          getVal_setCell_same]
        rw [← getVal_setCell_ne r v1 (by decide : ("ABFAHRTSZEIT" : String) ≠ "AN_PROGNOSE"),
          ← getVal_setCell_ne _ v2 (by decide : ("ABFAHRTSZEIT" : String) ≠ "ANKUNFTSZEIT"),
          ← getVal_setCell_ne _ v3 (by decide : ("ABFAHRTSZEIT" : String) ≠ "AB_PROGNOSE")]
        exact hv4
      · rw [getVal_setCell_same]
        rw [← getVal_setCell_ne r v1 (by decide : ("BETRIEBSTAG" : String) ≠ "AN_PROGNOSE"),
          ← getVal_setCell_ne _ v2 (by decide : ("BETRIEBSTAG" : String) ≠ "ANKUNFTSZEIT"),
          ← getVal_setCell_ne _ v3 (by decide : ("BETRIEBSTAG" : String) ≠ "AB_PROGNOSE"),
          ← getVal_setCell_ne _ v4 (by decide : ("BETRIEBSTAG" : String) ≠ "ABFAHRTSZEIT")]
        exact hv5
    · intro c hc
      simp only [timestampColumns, List.mem_cons, List.not_mem_nil, or_false,
        not_or] at hc
      obtain ⟨n1, n2, n3, n4, n5⟩ := hc
      rw [getVal_setCell_ne _ v5 n5, getVal_setCell_ne _ v4 n4,
        getVal_setCell_ne _ v3 n3, getVal_setCell_ne _ v2 n2,
        getVal_setCell_ne _ v1 n1]

theorem clean_data_abfahrt_ok {t t' : Table} (h : clean_data_abfahrt t = .ok t') :
    ∃ t1 t2 t3 t4 t5,
      select_trains t = .ok t1 ∧
      remove_unnecessary_columns t1 = .ok t2 ∧
      convert_to_datetimes t2 = .ok t3 ∧
      real_prognose_filter_abfahrt t3 = .ok t4 ∧
      bad_data_filter_abfahrt t4 = .ok t5 ∧
      calculate_delay_abfahrt t5 = .ok t' := by
  simp only [clean_data_abfahrt] at h
  split at h
  · exact absurd h (by simp)
  · split at h
    · exact absurd h (by simp)
    · split at h
      · exact absurd h (by simp)
      · split at h
        · exact absurd h (by simp)
        · split at h
          · exact absurd h (by simp)
          · rename_i x1 ta h1 x2 tb h2 x3 tc h3 x4 td h4 x5 te h5
            exact ⟨ta, tb, tc, td, te, h1, h2, h3, h4, h5, h⟩

/-! ### Date-range lemmas -/

theorem dateListCode_eq_specClosedRange (a b : Int) :
    dateListCode a b = specClosedRange a b := by
  have key : ∀ (n : Nat) (a b : Int), (b - a + 1).toNat = n →
      dateListCode a b = specClosedRange a b := by
    intro n
    induction n with
    | zero =>
      intro a b hn
      have hab : ¬ a ≤ b := by omega
      rw [specClosedRange]
      simp [dateListCode, hn, hab]
    | succ n ih =>
      intro a b hn
      have hab : a ≤ b := by omega
      have hcount : (b - (a + 1) + 1).toNat = n := by omega
      have hstep : dateListCode a b = a :: dateListCode (a + 1) b := by
        simp only [dateListCode, hn, hcount, List.range_succ_eq_map,
          List.map_cons, List.map_map, List.cons.injEq]
        refine ⟨by simp, ?_⟩
        apply List.map_congr_left
        intro i _
        simp only [Function.comp_apply]
        push_cast
        ring
      rw [hstep, ih (a + 1) b hcount]
      conv_rhs => rw [specClosedRange]
      rw [dif_pos hab]
  exact key ((b - a + 1).toNat) a b rfl

theorem specClosedRange_head (a b : Int) (h : a ≤ b) :
    (specClosedRange a b).head? = some a := by
  rw [specClosedRange, dif_pos h]
  rfl

theorem specClosedRange_length (a b : Int) :
    (specClosedRange a b).length = (b - a + 1).toNat := by
  rw [← dateListCode_eq_specClosedRange]
  simp [dateListCode]

theorem specClosedRange_chain (a b : Int) :
    List.Chain' (fun x y => y = x + 1) (specClosedRange a b) := by
  have key : ∀ (n : Nat) (a b : Int), (b - a + 1).toNat = n →
      List.Chain' (fun x y => y = x + 1) (specClosedRange a b) := by
    intro n
    induction n with
    | zero =>
      intro a b hn
      have hab : ¬ a ≤ b := by omega
      rw [specClosedRange, dif_neg hab]
      exact List.chain'_nil
    | succ n ih =>
      intro a b hn
      have hab : a ≤ b := by omega
      have hcount : (b - (a + 1) + 1).toNat = n := by omega
      rw [specClosedRange, dif_pos hab]
      rw [List.chain'_cons']
      refine ⟨?_, ih (a + 1) b hcount⟩
      intro y hy
      by_cases hb : a + 1 ≤ b
      · rw [specClosedRange_head _ _ hb] at hy
        simp only [Option.mem_def, Option.some.injEq] at hy
        omega
      · rw [specClosedRange, dif_neg hb] at hy
        simp at hy
  exact key ((b - a + 1).toNat) a b rfl

/-! ### Further concrete tables used by witnesses and counterexamples -/

/-- Example raw table holding only the surviving train row. -/
def exTrainTable : Table := ⟨exCols, [rowA]⟩

/-- Output of timestamp conversion on `exTrainTable`. -/
def exConvA : Table := ((convert_to_datetimes exTrainTable).toOption).getD ⟨[], []⟩

/-- The single row of `exConvA`. -/
def exConvARow : Row := (exConvA.rows[0]?).getD []

/-- Output of the delay derivation on `exConvA`. -/
def exDelayOut : Table := ((calculate_delay_abfahrt exConvA).toOption).getD ⟨[], []⟩

/-- Output of timestamp conversion on the three-row `exTable`. -/
def exConvAll : Table := ((convert_to_datetimes exTable).toOption).getD ⟨[], []⟩

/-- Output of the column-drop stage on `exTable`. -/
def exDropped : Table := ((remove_unnecessary_columns exTable).toOption).getD ⟨[], []⟩

/-- Example raw row whose predicted arrival is an unparseable string. -/
def exBadRow : Row :=
  mkRow "SBB" "Zug"
    (.str "01.05.2021 09:58:00") (.str "garbage") "REAL"
    (.str "01.05.2021 10:00:00") (.str "01.05.2021 10:01:00") "REAL"

/-- Example raw table containing the unparseable row. -/
def exBadTable : Table := ⟨exCols, [exBadRow]⟩

/-- Converted-tier row with null departure timestamps and non-null
arrival timestamps. -/
def exNullDepRow : Row :=
  [("AN_PROGNOSE", .ts 100), ("ANKUNFTSZEIT", .ts 90),
   ("AB_PROGNOSE", .null), ("ABFAHRTSZEIT", .null)]

/-- Converted-tier row with non-null departure timestamps and a null
scheduled arrival. -/
def exNullArrRow : Row :=
  [("AN_PROGNOSE", .ts 100), ("ANKUNFTSZEIT", .null),
   ("AB_PROGNOSE", .ts 50), ("ABFAHRTSZEIT", .ts 40)]

/-- Converted-tier table holding the two mixed-nullness rows. -/
def exMixedTable : Table :=
  ⟨["AN_PROGNOSE", "ANKUNFTSZEIT", "AB_PROGNOSE", "ABFAHRTSZEIT"],
   [exNullDepRow, exNullArrRow]⟩

/-- Output of the effective bad-data filter on `exMixedTable`. -/
def exMixedFiltered : Table :=
  ((bad_data_filter_abfahrt exMixedTable).toOption).getD ⟨[], []⟩

/-- Output of the delay derivation on `exMixedFiltered`. -/
def exMixedDelayed : Table :=
  ((calculate_delay_abfahrt exMixedFiltered).toOption).getD ⟨[], []⟩

/-- Data directory holding only a cleaned artifact for day 0. -/
def exFSCleanedOnly : FS := ⟨[], [], [(0, exCleanOut)], []⟩

/-- Data directory holding only a raw artifact for day 0. -/
def exFSRawOnly : FS := ⟨[], [(0, exTable)], [], []⟩

/-- Data directory after the cleaned tier has been computed for day 0. -/
def exFSAfterClean : FS := ⟨[], [(0, exTable)], [(0, exCleanOut)], []⟩

/-- Empty data directory. -/
def exFSEmpty : FS := ⟨[], [], [], []⟩

/-! ### Claim C1 -/

/-- Boolean check of two consequences of claim C1's description of the
clean pipeline at one input: the output contains the derived arrival
delay column, and every output row passed an arrival-status-REAL gate.
This encodes the claim's words and is used only to refute them. -/
def c1ClaimAt (t : Table) : Bool :=
  match clean_data_abfahrt t with
  | .error _ => true
  | .ok t' =>
    decide ("ANKUNFTSVERSPAETUNG_s" ∈ t'.cols) &&
    t'.rows.all (fun r => getVal r "AN_PROGNOSE_STATUS" == Value.str "REAL")

/-- Claim C1 is false on the code: on `exTable` the clean pipeline keeps
a row whose arrival status is `"GESCHAETZT"` and produces no arrival
delay column, so the pipeline neither gates on both statuses nor derives
the arrival delay. -/
theorem c1_counterexample : c1ClaimAt exTable = false := by decide

/-- Claim C1 (amended): the clean pipeline selects trains, drops the
unused columns, parses timestamps, keeps only rows whose DEPARTURE
status is REAL, keeps only rows whose ARRIVAL timestamp pair is
non-null, and derives the departure delay only: the output always has
the departure delay column, has an arrival delay column only when the
input already had one, and every output row has departure status REAL
and non-null arrival timestamps. -/
theorem c1_clean_pipeline_shape {t t' : Table}
    (h : clean_data_abfahrt t = .ok t') :
    "ABFAHRTSVERSPAETUNG_s" ∈ t'.cols ∧
    ("ANKUNFTSVERSPAETUNG_s" ∈ t'.cols ↔ "ANKUNFTSVERSPAETUNG_s" ∈ t.cols) ∧
    t'.rows.all (fun r =>
      (getVal r "AB_PROGNOSE_STATUS" == Value.str "REAL") &&
      !(getVal r "AN_PROGNOSE" == Value.null) &&
      !(getVal r "ANKUNFTSZEIT" == Value.null)) = true := by
  obtain ⟨t1, t2, t3, t4, t5, h1, h2, h3, h4, h5, h6⟩ := clean_data_abfahrt_ok h
  obtain ⟨hc1, hr1⟩ := colEqFilter_ok h1
  obtain ⟨hc2, hl2, hmem2⟩ := remove_unnecessary_columns_ok h2
  have hc3 := (convert_rows h3).1
  obtain ⟨hc4, hr4⟩ := colEqFilter_ok h4
  obtain ⟨hc5, hr5⟩ := notnaFilter_ok h5
  obtain ⟨hc6, hm6⟩ := calculate_delay_abfahrt_ok h6
  refine ⟨?_, ?_, ?_⟩
  · rw [hc6]
    exact self_mem_addCol ..
  · rw [hc6, mem_addCol, hc5, hc4, hc3, hc2, hc1]
    constructor
    · rintro (hmem | habs)
      · exact (List.mem_filter.mp hmem).1
      · exact absurd habs (by decide)
    · intro hmem
      exact Or.inl (List.mem_filter.mpr ⟨hmem, by decide⟩)
  · rw [List.all_eq_true]
    intro r' hr'
    obtain ⟨r5, hr5mem, hdel⟩ := mapME_mem_rev hm6 r' hr'
    have e1 : getVal r' "AB_PROGNOSE_STATUS" = getVal r5 "AB_PROGNOSE_STATUS" :=
      delayRow_getVal_ne hdel (by decide)
    have e2 : getVal r' "AN_PROGNOSE" = getVal r5 "AN_PROGNOSE" :=
      delayRow_getVal_ne hdel (by decide)
    have e3 : getVal r' "ANKUNFTSZEIT" = getVal r5 "ANKUNFTSZEIT" :=
      delayRow_getVal_ne hdel (by decide)
    rw [hr5] at hr5mem
    obtain ⟨hr4mem, hnn⟩ := List.mem_filter.mp hr5mem
    rw [hr4] at hr4mem
    obtain ⟨_, hst⟩ := List.mem_filter.mp hr4mem
    simp only [decide_eq_true_eq] at hst
    simp only [Bool.and_eq_true, decide_eq_true_eq] at hnn
    rw [e1, e2, e3]
    simp [beq_iff_eq, hst, hnn.1, hnn.2]

/-- Witness for the amended claim C1 at the concrete table `exTable`. -/
theorem c1_clean_pipeline_shape_witness :
    clean_data_abfahrt exTable = .ok exCleanOut ∧
    ("ABFAHRTSVERSPAETUNG_s" ∈ exCleanOut.cols ∧
     ("ANKUNFTSVERSPAETUNG_s" ∈ exCleanOut.cols ↔
       "ANKUNFTSVERSPAETUNG_s" ∈ exTable.cols) ∧
     exCleanOut.rows.all (fun r =>
       (getVal r "AB_PROGNOSE_STATUS" == Value.str "REAL") &&
       !(getVal r "AN_PROGNOSE" == Value.null) &&
       !(getVal r "ANKUNFTSZEIT" == Value.null)) = true) :=
  ⟨by decide, c1_clean_pipeline_shape (by decide)⟩

/-! ### Claim C2 -/

/-- Claim C2 (code bug): when the cleaned artifact exists and the
prepared one does not, `read_prepared_data` does not apply only the
operator filter: it calls `prepare_data`, which re-runs the full clean
pipeline on the already-cleaned table, and the column-drop stage raises
KeyError because the unused columns were already dropped. -/
theorem c2_read_prepared_on_cleaned_raises :
    read_prepared_data [] 0 exFSCleanedOnly = .error "KeyError" := by decide

/-! ### Claim C3 -/

/-- Claim C3 is false on the code: `convert_to_datetimes` raises on a
table containing one unparseable timestamp string instead of mapping it
to null. -/
theorem c3_counterexample :
    convert_to_datetimes exBadTable = .error "ValueError" := by decide

/-- Claim C3 (amended): the timestamp-parsing stage converts the four
timestamp columns and the service-day column; null cells stay null and
parseable string cells become timestamps, but an unparseable non-null
string raises an error rather than becoming null (so such a row aborts
the pipeline instead of being dropped by the later non-null filters). -/
theorem c3_convert_null_and_parse {t t' : Table}
    (h : convert_to_datetimes t = .ok t') :
    t'.cols = t.cols ∧ t'.rows.length = t.rows.length ∧
    ∀ (i : Nat) (r : Row), t.rows[i]? = some r →
      ∃ r', t'.rows[i]? = some r' ∧
        ∀ c ∈ timestampColumns,
          (getVal r c = .null → getVal r' c = .null) ∧
          ∀ s, getVal r c = .str s →
            ∃ n, parseTimestamp s = some n ∧ getVal r' c = .ts n := by
  obtain ⟨hcols, hlen, hrows⟩ := convert_rows h
  refine ⟨hcols, hlen, ?_⟩
  intro i r hr
  obtain ⟨r', hr', hin, _⟩ := hrows i r hr
  refine ⟨r', hr', ?_⟩
  intro c hc
  have hp := hin c hc
  constructor
  · intro hnull
    rw [hnull] at hp
    simp only [parseValue] at hp
    injection hp with hv
    exact hv.symm
  · intro s hs
    rw [hs] at hp
    simp only [parseValue] at hp
    split at hp
    · rename_i n hpt
      injection hp with hv
      exact ⟨n, hpt, hv.symm⟩
    · exact absurd hp (by simp)

/-- Witness for the amended claim C3 at the concrete table `exTable`. -/
theorem c3_convert_null_and_parse_witness :
    convert_to_datetimes exTable = .ok exConvAll ∧
    (exConvAll.cols = exTable.cols ∧
     exConvAll.rows.length = exTable.rows.length ∧
     ∀ (i : Nat) (r : Row), exTable.rows[i]? = some r →
       ∃ r', exConvAll.rows[i]? = some r' ∧
         ∀ c ∈ timestampColumns,
           (getVal r c = .null → getVal r' c = .null) ∧
           ∀ s, getVal r c = .str s →
             ∃ n, parseTimestamp s = some n ∧ getVal r' c = .ts n) :=
  ⟨by decide, c3_convert_null_and_parse (by decide)⟩

/-! ### Claim C4 -/

/-- Claim C4: once an artifact exists for a date and tier, the tiered
cache reader returns exactly the stored artifact with the data directory
unchanged, so a second invocation after a successful one returns the
same table and recomputes nothing; stated for the raw tier
(`read_data`) and the cleaned tier (`read_cleaned_data`). -/
theorem c4_tiered_reader_idempotent (remote : List (Int × Table)) (d : Int)
    (fs : FS) (t : Table) (fs' : FS) :
    (read_data remote d fs = .ok (t, fs') →
      fs'.raw.lookup d = some t ∧ read_data remote d fs' = .ok (t, fs')) ∧
    (read_cleaned_data remote d fs = .ok (t, fs') →
      fs'.cleaned.lookup d = some t ∧
        read_cleaned_data remote d fs' = .ok (t, fs')) := by
  constructor
  · intro h
    simp only [read_data] at h
    split at h
    · rename_i t0 hlook
      cases h
      exact ⟨hlook, by simp [read_data, hlook]⟩
    · split at h
      · rename_i t0 hcsv
        cases h
        refine ⟨lookup_store .., ?_⟩
        simp [read_data, lookup_store]
      · split at h
        · rename_i t0 hdl
          cases h
          refine ⟨lookup_store .., ?_⟩
          simp [read_data, lookup_store]
        · exact absurd h (by simp)
  · intro h
    simp only [read_cleaned_data] at h
    split at h
    · rename_i t0 hlook
      cases h
      exact ⟨hlook, by simp [read_cleaned_data, hlook]⟩
    · split at h
      · exact absurd h (by simp)
      · split at h
        · exact absurd h (by simp)
        · cases h
          refine ⟨lookup_store .., ?_⟩
          simp [read_cleaned_data, lookup_store]

/-- Witness for claim C4: computing the cleaned tier for day 0 from the
raw artifact persists it, and the second invocation returns the same
table from the artifact with the directory unchanged. -/
theorem c4_tiered_reader_idempotent_witness :
    read_cleaned_data [] 0 exFSRawOnly = .ok (exCleanOut, exFSAfterClean) ∧
    (exFSAfterClean.cleaned.lookup 0 = some exCleanOut ∧
     read_cleaned_data [] 0 exFSAfterClean = .ok (exCleanOut, exFSAfterClean)) :=
  ⟨by decide,
   (c4_tiered_reader_idempotent [] 0 exFSRawOnly exCleanOut exFSAfterClean).2
     (by decide)⟩

/-! ### Claim C5 -/

/-- Claim C5: for any row with non-null converted departure timestamps,
the derived departure delay equals predicted minus scheduled in seconds
as a signed rational (modelling the float). -/
theorem c5_departure_delay_formula {t t' : Table}
    (h : calculate_delay_abfahrt t = .ok t') (i : Nat) (r : Row)
    (hr : t.rows[i]? = some r) (p s : Int)
    (hp : getVal r "AB_PROGNOSE" = .ts p)
    (hs : getVal r "ABFAHRTSZEIT" = .ts s) :
    ∃ r', t'.rows[i]? = some r' ∧
      getVal r' "ABFAHRTSVERSPAETUNG_s" = .num ((p - s : Int) : ℚ) := by
  obtain ⟨_, hmap⟩ := calculate_delay_abfahrt_ok h
  obtain ⟨r', hr', hdel⟩ := mapME_getElem? hmap i r hr
  refine ⟨r', hr', ?_⟩
  simp only [delayRow, hp, hs] at hdel
  cases hdel
  exact getVal_setCell_same ..

/-- Witness for claim C5: scheduled departure 10:00:00 and predicted
departure 10:02:30 on 2021-05-01 give a derived departure delay of
exactly 150 seconds. -/
theorem c5_departure_delay_formula_witness :
    calculate_delay_abfahrt exConvA = .ok exDelayOut ∧
    getVal exConvARow "AB_PROGNOSE" = .ts 1619863350 ∧
    getVal exConvARow "ABFAHRTSZEIT" = .ts 1619863200 ∧
    ∃ r', exDelayOut.rows[0]? = some r' ∧
      getVal r' "ABFAHRTSVERSPAETUNG_s" = .num 150 := by
  refine ⟨by decide, by decide, by decide, ?_⟩
  obtain ⟨r', h1, h2⟩ := c5_departure_delay_formula
    (by decide : calculate_delay_abfahrt exConvA = Except.ok exDelayOut)
    0 exConvARow (by decide) 1619863350 1619863200 (by decide) (by decide)
  exact ⟨r', h1, by rw [h2]; decide⟩

/-! ### Claim C6 -/

/-- Boolean check of claim C6's invariant at one input for the
drop-unused-columns stage: the caller's table is unchanged after the
call.  This encodes the claim's words and is used only to refute them. -/
def c6ClaimAt (t : Table) : Bool :=
  remove_unnecessary_columns_callerView t == t

/-- Claim C6 is false on the code: `remove_unnecessary_columns` uses
`drop(inplace=True)`, so on `exTable` the caller's table is mutated to
the column-dropped table rather than left unchanged. -/
theorem c6_counterexample : c6ClaimAt exTable = false := by decide

/-- Claim C6 (amended): the row-selection stage filters leave the
caller's table unchanged, but the drop-unused-columns stage mutates the
caller's table in place: after a successful call the caller's table is
the column-dropped result, which differs from the original. -/
theorem c6_stage_caller_view :
    (∀ t : Table, select_trains_callerView t = t) ∧
    ∀ t t' : Table, remove_unnecessary_columns t = .ok t' →
      remove_unnecessary_columns_callerView t = t' ∧ t' ≠ t := by
  refine ⟨fun t => rfl, ?_⟩
  intro t t' h
  refine ⟨by simp [remove_unnecessary_columns_callerView, h], ?_⟩
  intro heq
  obtain ⟨hcols, _, hmem⟩ := remove_unnecessary_columns_ok h
  have hnot : "BETREIBER_ID" ∉ t'.cols := by
    rw [hcols]
    simp [List.mem_filter, unnecessaryColumns]
  rw [heq] at hnot
  exact hnot hmem

/-- Witness for the amended claim C6 at the concrete table `exTable`. -/
theorem c6_stage_caller_view_witness :
    remove_unnecessary_columns exTable = .ok exDropped ∧
    (remove_unnecessary_columns_callerView exTable = exDropped ∧
     exDropped ≠ exTable) :=
  ⟨by decide, c6_stage_caller_view.2 exTable exDropped (by decide)⟩

/-! ### Claim C7 -/

/-- Claim C7: for start ≤ end both range readers iterate over exactly
the closed calendar-day range from start to end in ascending order
(consecutive days, first element the start date, one entry per day) and
equal the sequential single-date reads concatenated in order. -/
theorem c7_range_reader_closed_range (a b : Int) (h : a ≤ b)
    (remote : List (Int × Table)) (fs : FS) :
    dateListCode a b = specClosedRange a b ∧
    (dateListCode a b).length = (b - a + 1).toNat ∧
    (dateListCode a b).head? = some a ∧
    List.Chain' (fun x y => y = x + 1) (dateListCode a b) ∧
    read_cleaned_data_from_daterange remote a b fs =
      seqReadConcat (read_cleaned_data remote) (specClosedRange a b) fs ∧
    read_prepared_data_from_daterange remote a b fs =
      seqReadConcat (read_prepared_data remote) (specClosedRange a b) fs := by
  have heq := dateListCode_eq_specClosedRange a b
  refine ⟨heq, ?_, ?_, ?_, ?_, ?_⟩
  · rw [heq, specClosedRange_length]
  · rw [heq, specClosedRange_head a b h]
  · rw [heq]
    exact specClosedRange_chain a b
  · simp only [read_cleaned_data_from_daterange, seqReadConcat, heq]
  · simp only [read_prepared_data_from_daterange, seqReadConcat, heq]

/-- Witness for claim C7 on the concrete range from day 0 to day 2. -/
theorem c7_range_reader_closed_range_witness :
    ((0 : Int) ≤ 2) ∧
    (dateListCode 0 2 = specClosedRange 0 2 ∧
     (dateListCode 0 2).length = ((2 : Int) - 0 + 1).toNat ∧
     (dateListCode 0 2).head? = some 0 ∧
     List.Chain' (fun x y => y = x + 1) (dateListCode 0 2) ∧
     read_cleaned_data_from_daterange [] 0 2 exFSEmpty =
       seqReadConcat (read_cleaned_data []) (specClosedRange 0 2) exFSEmpty ∧
     read_prepared_data_from_daterange [] 0 2 exFSEmpty =
       seqReadConcat (read_prepared_data []) (specClosedRange 0 2) exFSEmpty) :=
  ⟨by decide, c7_range_reader_closed_range 0 2 (by decide) [] exFSEmpty⟩

/-! ### Claim C8 -/

/-- Claim C8: the clean pipeline never adds rows after the initial
train selection: whenever it succeeds, its output has at most as many
rows as the output of `select_trains` on the same input. -/
theorem c8_clean_row_count_le {t t' : Table}
    (h : clean_data_abfahrt t = .ok t') :
    ∃ t1, select_trains t = .ok t1 ∧ t'.rows.length ≤ t1.rows.length := by
  obtain ⟨t1, t2, t3, t4, t5, h1, h2, h3, h4, h5, h6⟩ := clean_data_abfahrt_ok h
  refine ⟨t1, h1, ?_⟩
  have l2 : t2.rows.length = t1.rows.length := (remove_unnecessary_columns_ok h2).2.1
  have l3 : t3.rows.length = t2.rows.length := (convert_rows h3).2.1
  have l4 : t4.rows.length ≤ t3.rows.length := by
    obtain ⟨_, hr⟩ := colEqFilter_ok h4
    rw [hr]
    exact List.length_filter_le _ _
  have l5 : t5.rows.length ≤ t4.rows.length := by
    obtain ⟨_, hr⟩ := notnaFilter_ok h5
    rw [hr]
    exact List.length_filter_le _ _
  have l6 : t'.rows.length = t5.rows.length :=
    mapME_length (calculate_delay_abfahrt_ok h6).2
  omega

/-- Witness for claim C8 at the concrete table `exTable`. -/
theorem c8_clean_row_count_le_witness :
    clean_data_abfahrt exTable = .ok exCleanOut ∧
    ∃ t1, select_trains exTable = .ok t1 ∧
      exCleanOut.rows.length ≤ t1.rows.length :=
  ⟨by decide, c8_clean_row_count_le (by decide)⟩

/-! ### Claim C9 -/

/-- Claim C9: the effective `bad_data_filter_abfahrt` (the second
definition, which shadows the first) tests the arrival columns: a row
with null departure timestamps but non-null arrival timestamps passes
the filter and receives a null departure delay, while a row with
non-null departure timestamps but a null arrival timestamp is
removed. -/
theorem c9_effective_bad_data_filter {t t1 t2 : Table}
    (h1 : bad_data_filter_abfahrt t = .ok t1)
    (h2 : calculate_delay_abfahrt t1 = .ok t2)
    {r q : Row} (hr : r ∈ t.rows)
    (hrabp : getVal r "AB_PROGNOSE" = .null)
    (hrabf : getVal r "ABFAHRTSZEIT" = .null)
    (hranp : getVal r "AN_PROGNOSE" ≠ .null)
    (hrank : getVal r "ANKUNFTSZEIT" ≠ .null)
    (hq : q ∈ t.rows) (hqank : getVal q "ANKUNFTSZEIT" = .null) :
    r ∈ t1.rows ∧
    (∃ r' ∈ t2.rows, delayRow r = .ok r' ∧
      getVal r' "ABFAHRTSVERSPAETUNG_s" = .null) ∧
    q ∉ t1.rows := by
  obtain ⟨hc1, hrows1⟩ := notnaFilter_ok h1
  have hrmem : r ∈ t1.rows := by
    rw [hrows1]
    exact List.mem_filter.mpr ⟨hr, by simp [hranp, hrank]⟩
  refine ⟨hrmem, ?_, ?_⟩
  · obtain ⟨_, hmap⟩ := calculate_delay_abfahrt_ok h2
    obtain ⟨r', hr', hdel⟩ := mapME_mem_fwd hmap r hrmem
    refine ⟨r', hr', hdel, ?_⟩
    simp only [delayRow, hrabp] at hdel
    cases hdel
    exact getVal_setCell_same ..
  · rw [hrows1]
    intro hqmem
    have hpred := (List.mem_filter.mp hqmem).2
    simp [hqank] at hpred

/-- Witness for claim C9 on the concrete two-row table
`exMixedTable`. -/
theorem c9_effective_bad_data_filter_witness :
    bad_data_filter_abfahrt exMixedTable = .ok exMixedFiltered ∧
    calculate_delay_abfahrt exMixedFiltered = .ok exMixedDelayed ∧
    (exNullDepRow ∈ exMixedTable.rows ∧
     exNullArrRow ∈ exMixedTable.rows) ∧
    (exNullDepRow ∈ exMixedFiltered.rows ∧
     (∃ r' ∈ exMixedDelayed.rows, delayRow exNullDepRow = .ok r' ∧
       getVal r' "ABFAHRTSVERSPAETUNG_s" = .null) ∧
     exNullArrRow ∉ exMixedFiltered.rows) := by
  refine ⟨by decide, by decide, ⟨by decide, by decide⟩, ?_⟩
  exact c9_effective_bad_data_filter
    (by decide : bad_data_filter_abfahrt exMixedTable = Except.ok exMixedFiltered)
    (by decide : calculate_delay_abfahrt exMixedFiltered = Except.ok exMixedDelayed)
    (by decide) (by decide) (by decide) (by decide) (by decide) (by decide)
    (by decide)

/-! ### Claim C10 -/

/-- Claim C10: when the end date is strictly earlier than the start
date, both range readers build an empty date list and raise the
empty-concatenation error instead of returning an empty table. -/
theorem c10_range_reader_raises (remote : List (Int × Table)) (a b : Int)
    (fs : FS) (h : b < a) :
    dateListCode a b = [] ∧
    read_cleaned_data_from_daterange remote a b fs = .error "ValueError" ∧
    read_prepared_data_from_daterange remote a b fs = .error "ValueError" := by
  have hnil : dateListCode a b = [] := by
    have hz : (b - a + 1).toNat = 0 := by omega
    simp [dateListCode, hz]
  refine ⟨hnil, ?_, ?_⟩
  · simp [read_cleaned_data_from_daterange, hnil, readTables, concatTables]
  · simp [read_prepared_data_from_daterange, hnil, readTables, concatTables]

/-- Witness for claim C10 on the reversed range from day 1 to day 0. -/
theorem c10_range_reader_raises_witness :
    ((0 : Int) < 1) ∧
    (dateListCode 1 0 = [] ∧
     read_cleaned_data_from_daterange [] 1 0 exFSEmpty = .error "ValueError" ∧
     read_prepared_data_from_daterange [] 1 0 exFSEmpty = .error "ValueError") :=
  ⟨by decide, c10_range_reader_raises [] 1 0 exFSEmpty (by decide)⟩

end Istdaten
